import Mathlib

/-!
Verification of protonvpn-nm-lib's connection lifecycle controller
(protonvpn_nm_lib/core/connection/connection.py) and its NetworkManager
D-Bus wrapper (protonvpn_nm_lib/core/dbus/dbus_wrapper.py), as a shallow
embedding.

Modelling conventions:
* Python exceptions become an explicit error type threaded through
  `Except`; a function that cannot raise in the relevant fragment is total.
* The lifecycle controller's side effects (actuator calls, daemon
  supervisor calls, adapter calls) are recorded in an event trace; the
  behaviour of each collaborator (success, or which exception it raises)
  is an input supplied by a `ConnEnv` environment value.
* D-Bus property bags are records holding exactly the keys the code reads;
  the snapshot of connections / active connections / devices that the bus
  would yield is passed in as a list.
-/

namespace ProtonVPN

/-- Kill switch action enum used by the actuator calls
(enums.KillSwitchActionEnum): ENABLE, DISABLE, PRE_CONNECTION. -/
inductive KillSwitchActionEnum
  | enable
  | disable
  | pre_connection
deriving DecidableEq, Repr

/-- Kill switch user-setting enum (enums.KillswitchStatusEnum).  The code
under src/ only compares against HARD and SOFT; a third value stands for
the kill switch being turned off in the user settings. -/
inductive KillswitchStatusEnum
  | hard
  | soft
  | disabled
deriving DecidableEq, Repr

/-- One observable side-effect call made by the controller: an IPv6
leak-protection actuator call, a kill-switch actuator call (with its
optional server_ip argument), the adapter's profile creation
(vpn_add_connection), the adapter's teardown (vpn_remove_connection), or
stopping the reconnect daemon. -/
inductive Event
  | ipv6_manage (action : KillSwitchActionEnum)
  | killswitch_manage (action : KillSwitchActionEnum) (server_ip : Option String)
  | vpn_add_connection
  | vpn_remove_connection
  | stop_daemon_reconnector
deriving DecidableEq, Repr

/-- Exceptions flowing through Connection.disconnect.  The first three are
the library exceptions named in its except clauses
(exceptions.ConnectionNotFound, exceptions.RemoveConnectionFinishError,
exceptions.StopConnectionFinishError); `genericException` stands for every
other Python exception, including other ProtonVPNException subclasses and
the plain Exception the code itself raises. -/
inductive PyExc
  | connectionNotFound (msg : String)
  | removeConnectionFinishError (msg : String)
  | stopConnectionFinishError (msg : String)
  | genericException (msg : String)
deriving DecidableEq, Repr

/-- Result of running a fragment of the controller: the outcome (normal
return or a raised exception) together with the trace of side-effect
calls it made, in order. -/
abbrev Step := Except PyExc Unit × List Event

/-- Python statement sequencing: if the first fragment raises, the second
never runs and contributes no events. -/
def stepSeq (s : Step) (next : Unit → Step) : Step :=
  match s.1 with
  | Except.error e => (Except.error e, s.2)
  | Except.ok _ => ((next ()).1, s.2 ++ (next ()).2)

/-- Environment for the Connection class: the user settings it reads and
the behaviour (normal return or raised exception) of each collaborator
call it can make.  Mirrors the attributes used by connection.py:
self.ipv6_lp, self.killswitch, self.daemon_reconnector, self.adapter and
self.protonvpn_user.settings.killswitch. -/
structure ConnEnv where
  enable_ipv6_leak_protection : Bool
  killswitch_status : KillswitchStatusEnum
  ipv6_manage : KillSwitchActionEnum → Except PyExc Unit
  killswitch_manage : KillSwitchActionEnum → Option String → Except PyExc Unit
  stop_daemon_reconnector : Except PyExc Unit
  vpn_add_connection : Except PyExc Unit
  vpn_remove_connection : Except PyExc Unit

/-- A call self.ipv6_lp.manage(action): the call is recorded and behaves
as the environment dictates. -/
def ipv6Call (env : ConnEnv) (action : KillSwitchActionEnum) : Step :=
  (env.ipv6_manage action, [Event.ipv6_manage action])

/-- A call self.killswitch.manage(action, server_ip=...): the call is
recorded and behaves as the environment dictates. -/
def killswitchCall (env : ConnEnv) (action : KillSwitchActionEnum)
    (server_ip : Option String) : Step :=
  (env.killswitch_manage action server_ip, [Event.killswitch_manage action server_ip])

/-- A fragment with no effect (a skipped if-branch). -/
def skipStep : Step := (Except.ok (), [])

/-- Connection._pre_setup_connection(entry_ip) (connection.py lines
87-95): if self.ipv6_lp.enable_ipv6_leak_protection, call
self.ipv6_lp.manage(ENABLE); then, if the user's kill-switch setting is
HARD, call self.killswitch.manage(PRE_CONNECTION, server_ip=entry_ip). -/
def pre_setup_connection (env : ConnEnv) (entry_ip : String) : Step :=
  stepSeq
    (if env.enable_ipv6_leak_protection then
      ipv6Call env KillSwitchActionEnum.enable
    else skipStep)
    (fun _ =>
      if env.killswitch_status = KillswitchStatusEnum.hard then
        killswitchCall env KillSwitchActionEnum.pre_connection (some entry_ip)
      else skipStep)

/-- Connection.setup_connection (connection.py lines 31-52).  The kwargs
assembly from server_data/user_data is pure dictionary plumbing with no
observable effect and is not modelled; the effectful suffix is
self._pre_setup_connection(server_entry_ip) followed by
self.adapter.vpn_add_connection(**kwargs). -/
def setup_connection (env : ConnEnv) (entry_ip : String) : Step :=
  stepSeq (pre_setup_connection env entry_ip)
    (fun _ => (env.vpn_add_connection, [Event.vpn_add_connection]))

/-- Connection._post_disconnect (connection.py lines 98-103): stop the
reconnect daemon, call self.ipv6_lp.manage(DISABLE), and if the user's
kill-switch setting is SOFT call self.killswitch.manage(DISABLE). -/
def post_disconnect (env : ConnEnv) : Step :=
  stepSeq (env.stop_daemon_reconnector, [Event.stop_daemon_reconnector])
    (fun _ =>
      stepSeq (ipv6Call env KillSwitchActionEnum.disable)
        (fun _ =>
          if env.killswitch_status = KillswitchStatusEnum.soft then
            killswitchCall env KillSwitchActionEnum.disable none
          else skipStep))

/-- The except chain of Connection.disconnect (connection.py lines 60-81):
ConnectionNotFound, RemoveConnectionFinishError and
StopConnectionFinishError are re-raised as
ConnectionNotFound("Unable to disconnect: ..."); every other exception is
re-raised as Exception("Unknown error occured: ..."). -/
def classify_disconnect_exc : PyExc → PyExc
  | PyExc.connectionNotFound m =>
      PyExc.connectionNotFound ("Unable to disconnect: " ++ m)
  | PyExc.removeConnectionFinishError m =>
      PyExc.connectionNotFound ("Unable to disconnect: " ++ m)
  | PyExc.stopConnectionFinishError m =>
      PyExc.connectionNotFound ("Unable to disconnect: " ++ m)
  | PyExc.genericException m =>
      PyExc.genericException ("Unknown error occured: " ++ m)

/-- Connection.disconnect (connection.py lines 57-84): try
self.adapter.vpn_remove_connection(); on an exception, re-raise it
classified by the except chain (no further effect happens); on success,
run self._post_disconnect(). -/
def disconnect (env : ConnEnv) : Step :=
  match env.vpn_remove_connection with
  | Except.error e =>
      (Except.error (classify_disconnect_exc e), [Event.vpn_remove_connection])
  | Except.ok _ =>
      ((post_disconnect env).1,
        Event.vpn_remove_connection :: (post_disconnect env).2)

/-- The three teardown failures named by the claim: the exceptions that
disconnect maps to ConnectionNotFound. -/
def is_teardown_exc : PyExc → Bool
  | PyExc.connectionNotFound _ => true
  | PyExc.removeConnectionFinishError _ => true
  | PyExc.stopConnectionFinishError _ => true
  | PyExc.genericException _ => false

/-- An environment in which every collaborator call succeeds and the
kill-switch user setting is SOFT. -/
def envSoftOk : ConnEnv :=
  { enable_ipv6_leak_protection := true
    killswitch_status := KillswitchStatusEnum.soft
    ipv6_manage := fun _ => Except.ok ()
    killswitch_manage := fun _ _ => Except.ok ()
    stop_daemon_reconnector := Except.ok ()
    vpn_add_connection := Except.ok ()
    vpn_remove_connection := Except.ok () }

/-- envSoftOk, except that the adapter's vpn_remove_connection raises
StopConnectionFinishError. -/
def envStopFinishErr : ConnEnv :=
  { envSoftOk with
    vpn_remove_connection :=
      Except.error (PyExc.stopConnectionFinishError "stop failed") }

/-- envSoftOk, except that the adapter's vpn_remove_connection raises an
exception outside the three named library exceptions, and the kill-switch
user setting is HARD. -/
def envRemoveGenericErr : ConnEnv :=
  { envSoftOk with
    killswitch_status := KillswitchStatusEnum.hard
    vpn_remove_connection :=
      Except.error (PyExc.genericException "dbus went away") }

/-- Lowercasing as Python str.lower() on the identifiers involved,
character by character. -/
def lowerChars (s : String) : List Char := s.data.map Char.toLower

/-- Python substring test a in b on character lists. -/
def isSubChars (a b : List Char) : Bool := decide (a <:+: b)

/-- The vpn.data sub-dictionary of a profile's settings, holding the
optional dev key (the virtual device name). -/
structure VpnData where
  dev : Option String
deriving DecidableEq, Repr

/-- A connection profile's settings dictionary as read by the wrapper:
connection.id, and an optional vpn section whose data entry is itself
optional (none models a missing or falsy vpn.data). -/
structure ConnSettings where
  id : String
  vpn : Option (Option VpnData)
deriving DecidableEq, Repr

/-- The dev_name computation of search_for_connection (dbus_wrapper.py
lines 55-59): None unless the settings have a vpn section with a truthy
data dictionary carrying a dev key. -/
def dev_name_of (s : ConnSettings) : Option String :=
  match s.vpn with
  | none => none
  | some none => none
  | some (some d) => d.dev

/-- DbusWrapper.search_for_connection (dbus_wrapper.py lines 14-84),
projected to the match loop: iterate the snapshot of profile settings (an
active-connection scan is the same loop after projecting each active
connection to its Connection profile) and return the first entry with
conn_name == id, or with conn_name.lower() a substring of id.lower()
while interface_name is provided and equals the profile's vpn device
name; an empty dict (none) when no entry matches.  The returned entry
stands for the result dictionary, whose fields are all read off it. -/
def search_for_connection (conns : List ConnSettings) (conn_name : String)
    (interface_name : Option String) : Option ConnSettings :=
  match conns with
  | [] => none
  | c :: rest =>
      if (conn_name == c.id) ||
          (isSubChars (lowerChars conn_name) (lowerChars c.id) &&
            interface_name.isSome && (interface_name == dev_name_of c)) then
        some c
      else search_for_connection rest conn_name interface_name

/-- Modelled from the spec's wording of the search predicate:
exact-id-match, or substring-match of the lowercased names together with a
provided interface name equal to the profile's device name. -/
def spec_match (name : String) (iface : Option String) (s : ConnSettings) : Bool :=
  (name == s.id) ||
    (isSubChars (lowerChars name) (lowerChars s.id) &&
      iface.isSome && (iface == dev_name_of s))

/-- Modelled from the spec's wording of find_connection: the first element
of the snapshot, in iteration order, satisfying spec_match. -/
def spec_find_connection (conns : List ConnSettings) (name : String)
    (iface : Option String) : Option ConnSettings :=
  conns.find? (spec_match name iface)

/-- The profile of the spec's scenario: id ProtonVPN, virtual device
proton0. -/
def protonProfile : ConnSettings :=
  { id := "ProtonVPN", vpn := some (some { dev := some "proton0" }) }

/-- A NetworkManager device as read by get_connection_device_path: its
object path and its AvailableConnections property (a list of profile
settings paths). -/
structure Device where
  path : String
  available_connections : List String
deriving DecidableEq, Repr

/-- DbusWrapper.get_connection_device_path (dbus_wrapper.py lines
86-110): for each device in AllDevices order, when AvailableConnections
is non-empty, compare the given settings path against the element
returned by pop() — the last element only — and return the device on
equality; None when no device matches. -/
def get_connection_device_path (devices : List Device)
    (connection_settings_path : String) : Option String :=
  match devices with
  | [] => none
  | d :: rest =>
      match d.available_connections.getLast? with
      | some last_conn =>
          if connection_settings_path == last_conn then some d.path
          else get_connection_device_path rest connection_settings_path
      | none => get_connection_device_path rest connection_settings_path

/-- The property bag of an active connection as read by the wrapper: the
Id, Type, State, Connection (settings path), Devices, Default and
Default6 keys. -/
structure ActiveConnProps where
  id : String
  conn_type : String
  state : Nat
  connection : String
  devices : List String
  is_default : Bool
  is_default6 : Bool
deriving DecidableEq, Repr

/-- DbusWrapper.get_active_connection (dbus_wrapper.py lines 302-364).
The snapshot pairs each active-connection path with its property bag;
none in place of the bag models a DBusException from the properties call,
which the code logs and skips.  The loop body: return the path when
get_by_id is given and equals Id; else when get_by_settings_path is given
and equals Connection; else when get_by_device_path is given and equals
the element Devices.pop() yields (the last one; the source would raise
IndexError on an empty Devices array, which the model renders as no
match); else when Default (or Default and Default6, a redundant
disjunct kept from the source) — note this last branch is NOT guarded by
any selector; else continue.  None when the loop exhausts the list. -/
def get_active_connection (conns : List (String × Option ActiveConnProps))
    (get_by_id : Option String) (get_by_settings_path : Option String)
    (get_by_device_path : Option String) : Option String :=
  match conns with
  | [] => none
  | (_path, none) :: rest =>
      get_active_connection rest get_by_id get_by_settings_path get_by_device_path
  | (path, some props) :: rest =>
      if (match get_by_id with
          | some i => props.id == i
          | none => false) then some path
      else if (match get_by_settings_path with
          | some s => props.connection == s
          | none => false) then some path
      else if (match get_by_device_path with
          | some d => props.devices.getLast? == some d
          | none => false) then some path
      else if props.is_default || (props.is_default && props.is_default6) then
        some path
      else
        get_active_connection rest get_by_id get_by_settings_path get_by_device_path

/-- DbusWrapper.check_active_vpn_conn (dbus_wrapper.py lines 173-205):
reading the active connection's properties may raise a DBusException
(modelled by props = none), which is logged and leaves the default
[False, None]; otherwise [True, settings of the Connection path] exactly
when Type is vpn and State is 2, and [False, None] in every other case. -/
def check_active_vpn_conn (props : Option ActiveConnProps)
    (settings_of : String → ConnSettings) : Bool × Option ConnSettings :=
  match props with
  | none => (false, none)
  | some p =>
      if p.conn_type == "vpn" && p.state == 2 then
        (true, some (settings_of p.connection))
      else (false, none)

/-- One entry of the active-connection scan of is_protonvpn_being_prepared:
the active connection's path, its property bag, and the settings of the
profile its Connection property points at.  Neither read is wrapped in a
try in the source, so the model supplies them directly. -/
structure ActivePrepEntry where
  path : String
  props : ActiveConnProps
  settings : ConnSettings
deriving DecidableEq, Repr

/-- The strict indexing settings["vpn"]["data"]["dev"] performed by
is_protonvpn_being_prepared (dbus_wrapper.py line 226): any missing key
raises a KeyError, which that function does not catch. -/
def vpn_data_dev (s : ConnSettings) : Except String String :=
  match s.vpn with
  | none => Except.error "KeyError: vpn"
  | some none => Except.error "KeyError: data"
  | some (some d) =>
      match d.dev with
      | some dev => Except.ok dev
      | none => Except.error "KeyError: dev"

/-- The loop of DbusWrapper.is_protonvpn_being_prepared (dbus_wrapper.py
lines 218-232) with its accumulator [False, None, None]: for every entry
of type vpn whose settings name the virtual device, overwrite the
accumulator with (True, State, path) and keep scanning — there is no
break. -/
def is_protonvpn_being_prepared_loop (vdn : String)
    (entries : List ActivePrepEntry) (acc : Bool × Option Nat × Option String) :
    Except String (Bool × Option Nat × Option String) :=
  match entries with
  | [] => Except.ok acc
  | e :: rest =>
      if e.props.conn_type == "vpn" then
        match vpn_data_dev e.settings with
        | Except.error err => Except.error err
        | Except.ok dev =>
            if dev == vdn then
              is_protonvpn_being_prepared_loop vdn rest
                (true, some e.props.state, some e.path)
            else
              is_protonvpn_being_prepared_loop vdn rest acc
      else is_protonvpn_being_prepared_loop vdn rest acc

/-- DbusWrapper.is_protonvpn_being_prepared (dbus_wrapper.py lines
207-234): run the scan starting from [False, None, None] and return the
final triple. -/
def is_protonvpn_being_prepared (vdn : String) (entries : List ActivePrepEntry) :
    Except String (Bool × Option Nat × Option String) :=
  is_protonvpn_being_prepared_loop vdn entries (false, none, none)

/-- The match condition of the prepared scan: Type is vpn and the strict
dev read yields the virtual device name. -/
def prepared_match (vdn : String) (e : ActivePrepEntry) : Bool :=
  e.props.conn_type == "vpn" &&
    (match vpn_data_dev e.settings with
     | Except.ok dev => dev == vdn
     | Except.error _ => false)

/-- Whether the strict dev read of the prepared scan succeeds on an
entry's settings. -/
def dev_readable (e : ActivePrepEntry) : Bool :=
  match vpn_data_dev e.settings with
  | Except.ok _ => true
  | Except.error _ => false

/-- The value produced from the last element of a list, or a default when
the list is empty: the shape of a loop that overwrites an accumulator on
every element without breaking. -/
def lastMatchOr {α β : Type _} (l : List α) (g : α → β) (a : β) : β :=
  match l.getLast? with
  | some e => g e
  | none => a

/-- The entries of the prepared scan of the two-match concrete check: two
active VPN connections on the virtual device proton0, in the preparing
(1) and connected (2) states. -/
def prepEntryFirst : ActivePrepEntry :=
  { path := "/org/freedesktop/NetworkManager/ActiveConnection/7",
    props := { id := "ProtonVPN", conn_type := "vpn", state := 1,
               connection := "/profile/proton", devices := ["/dev/7"],
               is_default := false, is_default6 := false },
    settings := protonProfile }

/-- Second entry of the two-match concrete check; deliberately later in
iteration order than prepEntryFirst. -/
def prepEntrySecond : ActivePrepEntry :=
  { path := "/org/freedesktop/NetworkManager/ActiveConnection/9",
    props := { id := "ProtonVPN", conn_type := "vpn", state := 2,
               connection := "/profile/proton", devices := ["/dev/9"],
               is_default := false, is_default6 := false },
    settings := protonProfile }

/-- C1: in every execution of setup_connection, the trace is exactly the
pre-setup trace followed by the vpn_add_connection call when pre-setup
returned normally (and by nothing when pre-setup raised), and the
pre-setup trace itself never contains the profile-creation call: every
actuator call of pre-setup happens strictly before vpn_add_connection,
and if pre-setup raises, the profile is never created. -/
theorem setup_connection_ordering (env : ConnEnv) (entry_ip : String) :
    (setup_connection env entry_ip).2 =
      (pre_setup_connection env entry_ip).2 ++
        (match (pre_setup_connection env entry_ip).1 with
          | Except.ok _ => [Event.vpn_add_connection]
          | Except.error _ => []) ∧
    Event.vpn_add_connection ∉ (pre_setup_connection env entry_ip).2 := by
  constructor
  · cases hr : (pre_setup_connection env entry_ip).1 <;>
      simp [setup_connection, stepSeq, hr]
  · cases hB : env.enable_ipv6_leak_protection <;>
      cases hK : env.ipv6_manage KillSwitchActionEnum.enable <;>
      by_cases hS : env.killswitch_status = KillswitchStatusEnum.hard <;>
      cases hM : env.killswitch_manage KillSwitchActionEnum.pre_connection
        (some entry_ip) <;>
      simp [pre_setup_connection, stepSeq, ipv6Call, killswitchCall, skipStep,
        hB, hK, hS, hM]

/-- C2: when vpn_remove_connection succeeds (and the post-disconnect
daemon/leak-protection calls return normally), disconnect's trace is
exactly the teardown call followed by: stop the reconnect daemon, disable
IPv6 leak protection, and a kill-switch DISABLE call exactly when the
kill-switch user setting is SOFT; in particular in HARD (or disabled)
mode no DISABLE call ever reaches the kill switch. -/
theorem disconnect_post_disconnect_effects (env : ConnEnv)
    (hrm : env.vpn_remove_connection = Except.ok ())
    (hstop : env.stop_daemon_reconnector = Except.ok ())
    (hipv6 : env.ipv6_manage KillSwitchActionEnum.disable = Except.ok ()) :
    (disconnect env).2 =
      [Event.vpn_remove_connection, Event.stop_daemon_reconnector,
        Event.ipv6_manage KillSwitchActionEnum.disable] ++
      (if env.killswitch_status = KillswitchStatusEnum.soft then
        [Event.killswitch_manage KillSwitchActionEnum.disable none]
      else []) ∧
    (Event.killswitch_manage KillSwitchActionEnum.disable none ∈
        (disconnect env).2 ↔
      env.killswitch_status = KillswitchStatusEnum.soft) := by
  have htrace : (disconnect env).2 =
      [Event.vpn_remove_connection, Event.stop_daemon_reconnector,
        Event.ipv6_manage KillSwitchActionEnum.disable] ++
      (if env.killswitch_status = KillswitchStatusEnum.soft then
        [Event.killswitch_manage KillSwitchActionEnum.disable none]
      else []) := by
    by_cases hS : env.killswitch_status = KillswitchStatusEnum.soft <;>
      simp [disconnect, post_disconnect, stepSeq, ipv6Call, killswitchCall,
        skipStep, hrm, hstop, hipv6, hS]
  refine ⟨htrace, ?_⟩
  rw [htrace]
  by_cases hS : env.killswitch_status = KillswitchStatusEnum.soft <;> simp [hS]

/-- Closed instance of disconnect_post_disconnect_effects at the
all-successful SOFT-mode environment. -/
theorem disconnect_post_disconnect_effects_witness :
    (disconnect envSoftOk).2 =
      [Event.vpn_remove_connection, Event.stop_daemon_reconnector,
        Event.ipv6_manage KillSwitchActionEnum.disable] ++
      (if envSoftOk.killswitch_status = KillswitchStatusEnum.soft then
        [Event.killswitch_manage KillSwitchActionEnum.disable none]
      else []) ∧
    (Event.killswitch_manage KillSwitchActionEnum.disable none ∈
        (disconnect envSoftOk).2 ↔
      envSoftOk.killswitch_status = KillswitchStatusEnum.soft) :=
  disconnect_post_disconnect_effects envSoftOk rfl rfl rfl

/-- C3: when vpn_remove_connection raises, disconnect re-raises a
ConnectionNotFound whenever the exception was one of the three teardown
failures (ConnectionNotFound, RemoveConnectionFinishError,
StopConnectionFinishError), and re-raises a generic Exception for every
other exception; no exception escapes unclassified. -/
theorem disconnect_error_classification (env : ConnEnv) (e : PyExc)
    (h : env.vpn_remove_connection = Except.error e) :
    (is_teardown_exc e = true →
      ∃ m, (disconnect env).1 = Except.error (PyExc.connectionNotFound m)) ∧
    (is_teardown_exc e = false →
      ∃ m, (disconnect env).1 = Except.error (PyExc.genericException m)) := by
  cases e <;>
    simp [disconnect, classify_disconnect_exc, is_teardown_exc, h]

/-- Closed instance of disconnect_error_classification at an environment
whose teardown raises StopConnectionFinishError. -/
theorem disconnect_error_classification_witness :
    (is_teardown_exc (PyExc.stopConnectionFinishError "stop failed") = true →
      ∃ m, (disconnect envStopFinishErr).1 =
        Except.error (PyExc.connectionNotFound m)) ∧
    (is_teardown_exc (PyExc.stopConnectionFinishError "stop failed") = false →
      ∃ m, (disconnect envStopFinishErr).1 =
        Except.error (PyExc.genericException m)) :=
  disconnect_error_classification envStopFinishErr
    (PyExc.stopConnectionFinishError "stop failed") rfl

/-- C10: when vpn_remove_connection raises any exception, disconnect
raises and its trace is just the failed teardown call: the reconnect
daemon is not stopped and neither actuator receives any call. -/
theorem disconnect_failure_preserves_actuators (env : ConnEnv) (e : PyExc)
    (h : env.vpn_remove_connection = Except.error e) :
    (∃ e2, (disconnect env).1 = Except.error e2) ∧
    (disconnect env).2 = [Event.vpn_remove_connection] ∧
    Event.stop_daemon_reconnector ∉ (disconnect env).2 ∧
    (∀ a, Event.ipv6_manage a ∉ (disconnect env).2) ∧
    (∀ a ip, Event.killswitch_manage a ip ∉ (disconnect env).2) := by
  simp [disconnect, h]

/-- Closed instance of disconnect_failure_preserves_actuators at a
HARD-mode environment whose teardown raises a generic exception. -/
theorem disconnect_failure_preserves_actuators_witness :
    (∃ e2, (disconnect envRemoveGenericErr).1 = Except.error e2) ∧
    (disconnect envRemoveGenericErr).2 = [Event.vpn_remove_connection] ∧
    Event.stop_daemon_reconnector ∉ (disconnect envRemoveGenericErr).2 ∧
    (∀ a, Event.ipv6_manage a ∉ (disconnect envRemoveGenericErr).2) ∧
    (∀ a ip, Event.killswitch_manage a ip ∉ (disconnect envRemoveGenericErr).2) :=
  disconnect_failure_preserves_actuators envRemoveGenericErr
    (PyExc.genericException "dbus went away") rfl

/-- C4: search_for_connection returns the first entry, in iteration
order, matching exactly by id or fuzzily by lowercased substring plus
provided-and-equal interface name, and an empty result when none matches;
and the profile with id ProtonVPN and device proton0 is matched by the
query (protonvpn, proton0). -/
theorem search_for_connection_first_match :
    (∀ conns conn_name interface_name,
      search_for_connection conns conn_name interface_name =
        spec_find_connection conns conn_name interface_name) ∧
    search_for_connection [protonProfile] "protonvpn" (some "proton0") =
      some protonProfile := by
  constructor
  · intro conns conn_name interface_name
    induction conns with
    | nil => rfl
    | cons c rest ih =>
        show (if _ then _ else _) = List.find? _ _
        rw [List.find?_cons]
        by_cases h : spec_match conn_name interface_name c = true
        · rw [if_pos (by simpa [spec_match] using h), h]
        · rw [if_neg (by simpa [spec_match] using h),
            Bool.eq_false_iff.mpr h]
          exact ih
  · decide

/-- C6: on an empty active-connection list, get_active_connection returns
None for every selector combination and is_protonvpn_being_prepared
returns (False, None, None); neither raises. -/
theorem empty_active_list_safe :
    (∀ i s d, get_active_connection [] i s d = none) ∧
    (∀ vdn, is_protonvpn_being_prepared vdn [] =
      Except.ok (false, none, none)) := by
  constructor
  · intro i s d; rfl
  · intro vdn; rfl

/-- C8: get_connection_device_path returns the first device, in list
order, whose AvailableConnections' last element equals the given settings
path (None when there is none), and a device holding the profile anywhere
but last is not matched: a device whose available connections are the
sought profile followed by another is passed over. -/
theorem get_connection_device_path_last_element :
    (∀ devices p,
      get_connection_device_path devices p =
        (devices.find?
          (fun d => d.available_connections.getLast? == some p)).map
          Device.path) ∧
    get_connection_device_path
      [{ path := "/org/freedesktop/NetworkManager/Devices/1",
         available_connections := ["/profile/proton", "/profile/other"] }]
      "/profile/proton" = none := by
  constructor
  · intro devices p
    induction devices with
    | nil => rfl
    | cons d rest ih =>
        cases hL : d.available_connections.getLast? with
        | none => simp [get_connection_device_path, List.find?_cons, hL, ih]
        | some last_conn =>
            by_cases he : p = last_conn
            · simp [get_connection_device_path, List.find?_cons, hL, he]
            · have hne : last_conn ≠ p := fun hc => he hc.symm
              simp [get_connection_device_path, List.find?_cons, hL, he, hne, ih]
  · decide

/-- C9: check_active_vpn_conn yields (True, the profile settings) exactly
when the properties were readable with Type vpn and State 2; in every
other case, a DBusException while reading the properties included, it
yields (False, None) and never raises. -/
theorem check_active_vpn_conn_spec (props : Option ActiveConnProps)
    (settings_of : String → ConnSettings) :
    ((check_active_vpn_conn props settings_of).1 = true ↔
      ∃ p, props = some p ∧ p.conn_type = "vpn" ∧ p.state = 2) ∧
    (∀ p, props = some p → p.conn_type = "vpn" → p.state = 2 →
      check_active_vpn_conn props settings_of =
        (true, some (settings_of p.connection))) ∧
    ((check_active_vpn_conn props settings_of).1 = false →
      check_active_vpn_conn props settings_of = (false, none)) ∧
    (props = none → check_active_vpn_conn props settings_of = (false, none)) := by
  refine ⟨?_, ?_, ?_, ?_⟩
  · cases props with
    | none => simp [check_active_vpn_conn]
    | some p =>
        by_cases h1 : p.conn_type = "vpn" <;> by_cases h2 : p.state = 2 <;>
          simp [check_active_vpn_conn, h1, h2]
  · intro p hp h1 h2
    subst hp
    simp [check_active_vpn_conn, h1, h2]
  · cases props with
    | none => intro _; rfl
    | some p =>
        by_cases h1 : p.conn_type = "vpn" <;> by_cases h2 : p.state = 2 <;>
          simp [check_active_vpn_conn, h1, h2]
  · intro hp; subst hp; rfl

/-- C5 (failing input): under the by-id selector with id ProtonVPN, a
single active connection whose Id is Wired 1 — so no active connection
matches the selector — is nevertheless returned, because its Default flag
is set and the default-route branch of the loop is not guarded by any
selector; the claim (and the function's own docstring) requires None
here. -/
theorem get_active_connection_default_fallthrough :
    get_active_connection
      [("/org/freedesktop/NetworkManager/ActiveConnection/1",
        some { id := "Wired 1", conn_type := "802-3-ethernet", state := 2,
               connection := "/org/freedesktop/NetworkManager/Settings/1",
               devices := ["/org/freedesktop/NetworkManager/Devices/1"],
               is_default := true, is_default6 := false })]
      (some "ProtonVPN") none none =
      some "/org/freedesktop/NetworkManager/ActiveConnection/1" := by
  decide

/-- lastMatchOr steps over a cons by moving the head's value into the
default slot: only a later element can override it. -/
theorem lastMatchOr_cons {α β : Type _} (x : α) (l : List α) (g : α → β) (a : β) :
    lastMatchOr (x :: l) g a = lastMatchOr l g (g x) := by
  cases l with
  | nil => rfl
  | cons y ys =>
      unfold lastMatchOr
      rw [List.getLast?_cons_cons]
      cases h : (y :: ys).getLast? with
      | none => simp at h
      | some e => rfl

/-- The prepared-scan loop, run from any accumulator, ends at the triple
of the last matching entry (or at the accumulator when none matches),
provided every vpn-typed entry has a readable device name. -/
theorem prepared_loop_last_match (vdn : String) (entries : List ActivePrepEntry)
    (acc : Bool × Option Nat × Option String)
    (H : ∀ e ∈ entries, e.props.conn_type = "vpn" → dev_readable e = true) :
    is_protonvpn_being_prepared_loop vdn entries acc =
      Except.ok (lastMatchOr (entries.filter (prepared_match vdn))
        (fun e => (true, some e.props.state, some e.path)) acc) := by
  induction entries generalizing acc with
  | nil => rfl
  | cons e rest ih =>
      have Hrest : ∀ x ∈ rest, x.props.conn_type = "vpn" → dev_readable x = true :=
        fun x hx => H x (List.mem_cons_of_mem e hx)
      by_cases hT : e.props.conn_type = "vpn"
      · have hr : dev_readable e = true := H e (List.mem_cons_self e rest) hT
        cases hd : vpn_data_dev e.settings with
        | error err => simp [dev_readable, hd] at hr
        | ok d =>
            by_cases hdv : d = vdn
            · have hm : prepared_match vdn e = true := by
                simp [prepared_match, hT, hd, hdv]
              have hstep : is_protonvpn_being_prepared_loop vdn (e :: rest) acc =
                  is_protonvpn_being_prepared_loop vdn rest
                    (true, some e.props.state, some e.path) := by
                simp [is_protonvpn_being_prepared_loop, hT, hd, hdv]
              rw [hstep, ih _ Hrest, List.filter_cons_of_pos hm, lastMatchOr_cons]
            · have hm : ¬ prepared_match vdn e = true := by
                simp [prepared_match, hT, hd, hdv]
              have hstep : is_protonvpn_being_prepared_loop vdn (e :: rest) acc =
                  is_protonvpn_being_prepared_loop vdn rest acc := by
                simp [is_protonvpn_being_prepared_loop, hT, hd, hdv]
              rw [hstep, ih _ Hrest,
                List.filter_cons_of_neg hm]
      · have hm : ¬ prepared_match vdn e = true := by
          simp [prepared_match, hT]
        have hstep : is_protonvpn_being_prepared_loop vdn (e :: rest) acc =
            is_protonvpn_being_prepared_loop vdn rest acc := by
          simp [is_protonvpn_being_prepared_loop, hT]
        rw [hstep, ih _ Hrest,
          List.filter_cons_of_neg hm]

/-- C7: is_protonvpn_being_prepared scans the whole list with no early
exit; whenever every vpn-typed entry carries a readable device name, the
returned triple is the one of the LAST entry, in iteration order, of type
vpn on the virtual device (and (False, None, None) when there is none) —
so with several matches the last one wins, not the first. -/
theorem is_protonvpn_being_prepared_last_match (vdn : String)
    (entries : List ActivePrepEntry)
    (H : ∀ e ∈ entries, e.props.conn_type = "vpn" → dev_readable e = true) :
    is_protonvpn_being_prepared vdn entries =
      Except.ok (lastMatchOr (entries.filter (prepared_match vdn))
        (fun e => (true, some e.props.state, some e.path))
        (false, none, none)) :=
  prepared_loop_last_match vdn entries (false, none, none) H

/-- Closed instance of is_protonvpn_being_prepared_last_match on a
two-match snapshot: the preparing ProtonVPN connection at path .../7 is
iterated before the connected one at path .../9. -/
theorem is_protonvpn_being_prepared_last_match_witness :
    is_protonvpn_being_prepared "proton0" [prepEntryFirst, prepEntrySecond] =
      Except.ok (lastMatchOr
        ([prepEntryFirst, prepEntrySecond].filter (prepared_match "proton0"))
        (fun e => (true, some e.props.state, some e.path))
        (false, none, none)) :=
  is_protonvpn_being_prepared_last_match "proton0"
    [prepEntryFirst, prepEntrySecond] (by decide)

/-- Direct evaluation of the two-match snapshot: both entries match, and
the reported state and path are those of the second (last) entry, not the
first. -/
theorem prepared_two_matches_concrete :
    is_protonvpn_being_prepared "proton0" [prepEntryFirst, prepEntrySecond] =
      Except.ok
        (true, some 2, some "/org/freedesktop/NetworkManager/ActiveConnection/9") ∧
    prepared_match "proton0" prepEntryFirst = true ∧
    prepared_match "proton0" prepEntrySecond = true := by
  exact ⟨rfl, by decide, by decide⟩

end ProtonVPN
